import Mathlib

/-!
A shallow embedding, in Lean 4, of the serving layer of the fish-agent
repository (speech generation, agent chat, voice-profile store, rate
limiting, model cache, and the serverless job dispatcher), together with
theorems settling the behavioural claims about it.

Conventions of the embedding:
* Python dictionaries keyed by strings become insertion-ordered
  association lists `List (String × α)`.
* `time.time()` values become integer second counts `ℤ`, passed explicitly.
* Calls into the external model runtime become oracle parameters
  (`Except String α` values or functions), so theorems quantify over
  every possible model behaviour.
* Raised exceptions become `Except` errors; `fastapi.HTTPException`
  becomes the `HTTPError` structure below.
-/

namespace FishAgent

/-- An HTTP-style error carrying a status code and a detail message,
mirroring `fastapi.HTTPException` as used throughout the repository. -/
structure HTTPError where
  status_code : Nat
  detail : String
deriving Repr, DecidableEq

/-- Rendering of an `HTTPError` used when Python's outer
`except Exception` handler stringifies a caught `HTTPException`. -/
def HTTPError.str (e : HTTPError) : String :=
  toString e.status_code ++ ": " ++ e.detail

/-! ## Association-list helpers for Python dicts -/

/-- `d.get(k)` on an insertion-ordered dict. -/
def lookupKey {α : Type} (st : List (String × α)) (k : String) : Option α :=
  (st.find? (fun p => p.1 = k)).map Prod.snd

/-- `d[k] = v` on an insertion-ordered dict: replace in place when the
key exists, append otherwise. -/
def setKey {α : Type} : List (String × α) → String → α → List (String × α)
  | [], k, v => [(k, v)]
  | (k', v') :: rest, k, v =>
    if k' = k then (k, v) :: rest else (k', v') :: setKey rest k v

/-- `del d[k]`: drop every binding of `k` (keys are unique in a dict, so
this removes exactly the one binding). -/
def delKey {α : Type} (st : List (String × α)) (k : String) : List (String × α) :=
  st.filter (fun p => p.1 ≠ k)

/-! ## Authentication and rate limiting (`custom/utils/auth.py`) -/

/-- The two tiers configured in `RateLimiter.rate_limits`. -/
inductive Tier
  | default
  | premium
deriving Repr, DecidableEq

/-- `rate_limits[tier]["calls"]`: 10 calls for `default`, 100 for `premium`. -/
def tierCalls : Tier → Nat
  | .default => 10
  | .premium => 100

/-- `rate_limits[tier]["window"]`: 60 seconds for both tiers. -/
def tierWindow : Tier → ℤ
  | .default => 60
  | .premium => 60

/-- The per-key request-timestamp map `RateLimiter.requests`. -/
abbrev RLState : Type := List (String × List ℤ)

/-- The list comprehension retaining only timestamps strictly inside the
trailing window: `[t for t in ts if now - t < window]`. -/
def pruneWindow (window now : ℤ) (ts : List ℤ) : List ℤ :=
  ts.filter (fun t => now - t < window)

/-- `RateLimiter.is_rate_limited(api_key, tier)` at wall-clock time `now`.
Returns the boolean result together with the updated `requests` map: the
pruned timestamp list is stored back, and the current time is appended
exactly when the call is admitted (result `false`). -/
def is_rate_limited (now : ℤ) (tier : Tier) (st : RLState) (api_key : String) :
    Bool × RLState :=
  let ts := pruneWindow (tierWindow tier) now ((lookupKey st api_key).getD [])
  if tierCalls tier ≤ ts.length then
    (true, setKey st api_key ts)
  else
    (false, setKey st api_key (ts ++ [now]))

/-- `verify_api_key`: empty or absent keys are falsy and rejected; otherwise a
constant-time comparison with the configured `API_KEY`. -/
def verify_api_key (configured : String) (api_key : Option String) : Bool :=
  match api_key with
  | none => false
  | some k => if k = "" then false else k = configured

/-- `authenticate_request(api_key, tier)`: verify the key (401 on failure),
then consult the rate limiter (429 when limited, with a retry-after hint of
the tier's window length). Returns the outcome with the updated limiter state. -/
def authenticate_request (configured : String) (now : ℤ) (tier : Tier)
    (st : RLState) (api_key : Option String) :
    Except HTTPError Unit × RLState :=
  match api_key with
  | none => (.error ⟨401, "Invalid API key"⟩, st)
  | some k =>
    if verify_api_key configured (some k) then
      let r := is_rate_limited now tier st k
      if r.1 then
        (.error ⟨429, "Rate limit exceeded. Try again in 60 seconds"⟩, r.2)
      else
        (.ok (), r.2)
    else
      (.error ⟨401, "Invalid API key"⟩, st)

/-- Fold a sequence of timestamped calls for one key through the limiter. -/
def runCalls (tier : Tier) (k : String) (times : List ℤ) (st : RLState) : RLState :=
  times.foldl (fun s t => (is_rate_limited t tier s k).2) st

/-! ## Speech generation (`custom/api/speech.py`) -/

/-- Raw constructor input for `GenerateSpeechRequest` (the keyword
arguments handed to the pydantic model). -/
structure SpeechParams where
  text : String
  reference_audio : Option String
  speaker_id : Option String
  language : Option String
  emotion : Option String
  speed : Option ℚ
deriving Repr, DecidableEq

/-- A validated `GenerateSpeechRequest` (`speed` defaulted to 1.0). -/
structure GenerateSpeechRequest where
  text : String
  reference_audio : Option String
  speaker_id : Option String
  language : Option String
  emotion : Option String
  speed : ℚ
deriving Repr, DecidableEq

/-- Python truthiness of an optional string: `None` and `""` are falsy. -/
def falsyStr : Option String → Bool
  | none => true
  | some s => s = ""

/-- The `emotion` field regex `^(happy|sad|neutral)$` (vacuous when absent). -/
def emotionAllowed : Option String → Bool
  | none => true
  | some e => e = "happy" ∨ e = "sad" ∨ e = "neutral"

/-- The `speed` field bounds `ge=0.5, le=2.0` (vacuous when absent). -/
def speedOk : Option ℚ → Bool
  | none => true
  | some s => (1 : ℚ)/2 ≤ s ∧ s ≤ 2

/-- Pydantic construction of `GenerateSpeechRequest`: exactly the declared
field constraints are enforced (`text` length 1–2000, the `emotion` regex,
the `speed` bounds).  The classmethod `validate_voice_source` carries no
pydantic validator decorator, so constructing the model never invokes it;
it is embedded separately below. -/
def mkGenerateSpeechRequest (p : SpeechParams) : Except String GenerateSpeechRequest :=
  if 1 ≤ p.text.length ∧ p.text.length ≤ 2000 then
    if emotionAllowed p.emotion then
      if speedOk p.speed then
        .ok ⟨p.text, p.reference_audio, p.speaker_id, p.language, p.emotion,
             p.speed.getD 1⟩
      else .error "speed must be between 0.5 and 2.0"
    else .error "emotion string does not match regex"
  else .error "text length must be between 1 and 2000"

/-- `GenerateSpeechRequest.validate_voice_source` exactly as written in the
source: raises unless at least one of `reference_audio` / `speaker_id` is
truthy.  (In the source this classmethod is never wired into validation.) -/
def validate_voice_source (p : SpeechParams) : Except String SpeechParams :=
  if falsyStr p.reference_audio ∧ falsyStr p.speaker_id then
    .error "Either reference_audio or speaker_id must be provided"
  else .ok p

/-- The `input_data` dict assembled by `generate_speech` and passed to
`model.generate`. -/
structure SpeechModelInput where
  text : String
  language : Option String
  speed : ℚ
  reference_audio : Option String
  speaker_id : Option String
  emotion : Option String
deriving Repr, DecidableEq

/-- The `elif params.speaker_id:` arm of the voice-source handling. -/
def speakerFallback (r : GenerateSpeechRequest) :
    Except HTTPError (Option String × Option String) :=
  match r.speaker_id with
  | none => .ok (none, none)
  | some sid => if sid = "" then .ok (none, none) else .ok (none, some sid)

/-- Lines 44–66 of `custom/api/speech.py`: build `input_data` from the
request, decoding the base64 reference audio when present (an undecodable
payload raises HTTP 400), else falling back to `speaker_id`, and tagging
the emotion when truthy.  `dec` is the `base64.b64decode` oracle. -/
def buildSpeechInput (dec : String → Except String String)
    (r : GenerateSpeechRequest) : Except HTTPError SpeechModelInput :=
  let voice : Except HTTPError (Option String × Option String) :=
    match r.reference_audio with
    | none => speakerFallback r
    | some ra =>
      if ra = "" then speakerFallback r
      else
        match dec ra with
        | .ok bytes => .ok (some bytes, none)
        | .error e => .error ⟨400, "Invalid reference audio format: " ++ e⟩
  match voice with
  | .error e => .error e
  | .ok (ra, sid) =>
    .ok ⟨r.text, r.language, r.speed, ra, sid,
         if falsyStr r.emotion then none else r.emotion⟩

/-- The `fish-speech` model handle as seen by this service: a sample rate
and a generation oracle from the assembled input to an audio sample list. -/
structure SpeechModel where
  sample_rate : ℚ
  generate : SpeechModelInput → Except String (List ℚ)

/-- The successful response dict of `generate_speech`. -/
structure SpeechResult where
  status : String
  audio : String
  duration : ℚ

/-- `SpeechGenerator.generate_speech`: obtain the model (`load` oracle),
build the input, invoke generation, and encode the audio (`enc` oracle).
The outer `except Exception` also catches the inner `HTTPException(400)`
and rewraps every failure as HTTP 500.  The second component records the
argument of the `model.generate` call — `none` when no model call occurred. -/
def generate_speech (enc : List ℚ → String) (load : Except String SpeechModel)
    (dec : String → Except String String) (r : GenerateSpeechRequest) :
    Except HTTPError SpeechResult × Option SpeechModelInput :=
  match load with
  | .error e => (.error ⟨500, "Speech generation failed: " ++ e⟩, none)
  | .ok model =>
    match buildSpeechInput dec r with
    | .error e =>
      (.error ⟨500, "Speech generation failed: " ++ e.str⟩, none)
    | .ok inp =>
      match model.generate inp with
      | .error e => (.error ⟨500, "Speech generation failed: " ++ e⟩, some inp)
      | .ok audio =>
        (.ok ⟨"success", enc audio, (audio.length : ℚ) / model.sample_rate⟩,
         some inp)

/-- Per-call admittance results of a sequence of timestamped calls for one
key: the list of `is_rate_limited` booleans and the final limiter state. -/
def callResults (tier : Tier) (k : String) (st : RLState) :
    List ℤ → List Bool × RLState
  | [] => ([], st)
  | t :: ts =>
    let r := is_rate_limited t tier st k
    let rest := callResults tier k r.2 ts
    (r.1 :: rest.1, rest.2)

/-! ## Agent chat (`custom/api/agent.py`) -/

/-- A validated `AgentChatRequest`. -/
structure AgentChatRequest where
  message : String
  conversation_id : Option String
  reference_audio : Option String
  stream : Bool
  temperature : ℚ
  max_tokens : ℕ
deriving Repr, DecidableEq

/-- One conversation-history entry `{"role": ..., "content": ...}`. -/
structure ChatMsg where
  role : String
  content : String
deriving Repr, DecidableEq

/-- The `self.conversations` dict: conversation id → message history. -/
abbrev Conversations : Type := List (String × List ChatMsg)

/-- The `fish-speech` model handle as the chat service uses it:
`generate(text=..., reference_audio=...)` plus a sample rate. -/
structure ChatSpeechModel where
  sample_rate : ℚ
  generate : String → String → Except String (List ℚ)

/-- The external-call oracles `chat` depends on: loading/optimizing the
agent model, the agent `generate` call (a function of the conversation
handed to it), loading the speech model, `base64.b64decode`, and the
`torch.save` + base64 encoding of generated audio. -/
structure ChatDeps where
  agentLoad : Except String Unit
  agentGen : List ChatMsg → Except String String
  speechLoad : Except String ChatSpeechModel
  b64dec : String → Except String String
  enc : List ℚ → String

/-- The result dict of a completed (non-streamed) chat call. -/
structure ChatResult where
  status : String
  text : String
  audio : Option String
  duration : Option ℚ
  error : Option String

/-- What `chat` hands back on success: either the lazy streaming
generator or a completed result dict. -/
inductive ChatReturn
  | streamed
  | complete (r : ChatResult)

/-- `self.conversations.get(params.conversation_id, [])`. -/
def chatConversation (st : Conversations) (p : AgentChatRequest) : List ChatMsg :=
  match p.conversation_id with
  | none => []
  | some cid => (lookupKey st cid).getD []

/-- Python's `conversation[-10:]`. -/
def lastTen {α : Type} (l : List α) : List α := l.drop (l.length - 10)

/-- One history update (lines 62–68 of `custom/api/agent.py`, identically
lines 65–71 of `agent_server/handler.py`): extend with the user turn and
the assistant turn, then store only the last 10 messages. -/
def updateConversation (hist : List ChatMsg) (userMsg assistantReply : String) :
    List ChatMsg :=
  lastTen (hist ++ [⟨"user", userMsg⟩, ⟨"assistant", assistantReply⟩])

/-- The inner `try` of the voice-reply branch: decode the reference audio,
call `speech_model.generate`, encode the audio and compute its duration.
Any failure here is caught and downgraded, never propagated. -/
def chatSynth (d : ChatDeps) (model : ChatSpeechModel) (text ra : String) :
    Except String (String × ℚ) :=
  match d.b64dec ra with
  | .error e => .error e
  | .ok bytes =>
    match model.generate text bytes with
    | .error e => .error e
    | .ok audio => .ok (d.enc audio, (audio.length : ℚ) / model.sample_rate)

/-- `AgentChat.chat`: load the agent model, fetch the history, and either
hand back the streaming generator or generate the complete reply; then
update the history when a (truthy) conversation id was given; then, when
(truthy) reference audio was given, attempt speech synthesis — a synthesis
failure downgrades the result to `partial_success` keeping the text.
Failures of the primary path surface as HTTP 500. -/
def chat (d : ChatDeps) (st : Conversations) (p : AgentChatRequest) :
    Except HTTPError ChatReturn × Conversations :=
  match d.agentLoad with
  | .error e => (.error ⟨500, "Chat processing failed: " ++ e⟩, st)
  | .ok _ =>
    let conversation := chatConversation st p
    if p.stream then
      (.ok .streamed, st)
    else
      match d.agentGen conversation with
      | .error e => (.error ⟨500, "Chat processing failed: " ++ e⟩, st)
      | .ok response =>
        let st' :=
          match p.conversation_id with
          | none => st
          | some cid =>
            if cid = "" then st
            else setKey st cid (updateConversation conversation p.message response)
        match p.reference_audio with
        | none => (.ok (.complete ⟨"success", response, none, none, none⟩), st')
        | some ra =>
          if ra = "" then
            (.ok (.complete ⟨"success", response, none, none, none⟩), st')
          else
            match d.speechLoad with
            | .error e => (.error ⟨500, "Chat processing failed: " ++ e⟩, st')
            | .ok model =>
              match chatSynth d model response ra with
              | .ok (audioB64, dur) =>
                (.ok (.complete ⟨"success", response, some audioB64, some dur,
                  none⟩), st')
              | .error e =>
                (.ok (.complete ⟨"partial_success", response, none, none,
                  some ("Speech generation failed: " ++ e)⟩), st')

/-- Fold several chat rounds (user message, assistant reply) through the
history update of one conversation id. -/
def runRounds (rounds : List (String × String)) (hist : List ChatMsg) :
    List ChatMsg :=
  rounds.foldl (fun h r => updateConversation h r.1 r.2) hist

/-! ## Streamed chat events (`AgentChat._stream_response`) -/

/-- One server-sent event of the streaming chat path. -/
structure Event where
  status : String
  payload : Option String
deriving Repr, DecidableEq

/-- `{"status": "streaming", "token": t}`. -/
def tokenEvent (t : String) : Event := ⟨"streaming", some t⟩

/-- `{"status": "streaming_audio", "audio_chunk": c}`. -/
def chunkEvent (c : String) : Event := ⟨"streaming_audio", some c⟩

/-- `{"status": "complete"}`. -/
def completeEvent : Event := ⟨"complete", none⟩

/-- `{"status": "error", "error": e}`. -/
def errorEvent (e : String) : Event := ⟨"error", some e⟩

/-- `AgentChat._stream_response` as the event list it yields.  The whole
body sits in one `try`: `tokens` are the token values yielded before the
token stream either ends (`tokenErr = none`) or raises (`tokenErr = some
e`, jumping to the `except` which yields one error event).  When the token
phase completes and reference audio was supplied (truthy), the audio phase
yields `chunks` (already encoded) and either ends or raises at any point
(`audioErr` covers failures of the speech-model load, the base64 decode,
`generate_stream`, and chunk iteration — all inside the same `try`).  On
full success one complete event terminates the sequence. -/
def stream_response (tokens : List String) (tokenErr : Option String)
    (chunks : List String) (audioErr : Option String)
    (reference_audio : Option String) : List Event :=
  let toks := tokens.map tokenEvent
  match tokenErr with
  | some e => toks ++ [errorEvent e]
  | none =>
    if falsyStr reference_audio then toks ++ [completeEvent]
    else
      let cs := chunks.map chunkEvent
      match audioErr with
      | some e => toks ++ (cs ++ [errorEvent e])
      | none => toks ++ (cs ++ [completeEvent])

/-! ## Model cache (`custom/utils/models.py`) -/

/-- The model cache: names of the loaded models with their `last_used`
timestamps.  The source keeps `self.models` and `self.last_used` as two
dicts updated in lockstep (inserted together on load, deleted together on
eviction), so one insertion-ordered association list represents both. -/
abbrev CacheState : Type := List (String × ℤ)

/-- Python's `min(items, key=lambda x: x[1])`: the first entry whose
timestamp is minimal, in insertion order. -/
def minBySnd : List (String × ℤ) → Option (String × ℤ)
  | [] => none
  | e :: rest =>
    some (rest.foldl (fun best x => if x.2 < best.2 then x else best) e)

/-- `ModelManager._cleanup_cache`: when the cache has reached
`max_cache_size`, drop the entry with the least-recent `last_used`
timestamp (`min` over the timestamp dict). -/
def cleanup_cache (cap : ℕ) (st : CacheState) : CacheState :=
  if cap ≤ st.length then
    match minBySnd st with
    | none => st
    | some lru => delKey st lru.1
  else st

/-- `ModelManager.get_model` under the per-model lock: a cache hit only
refreshes the entry's timestamp; a miss first runs `_cleanup_cache`, then
loads the model (`loadOk` oracle — `_load_model` raises for unknown names
or missing checkpoints, in which case nothing is inserted) and appends the
new entry with the current time.  The boolean records whether
`_load_model` ran (the model was loaded fresh). -/
def get_model (loadOk : String → Bool) (cap : ℕ) (now : ℤ) (st : CacheState)
    (name : String) : Except String Unit × CacheState × Bool :=
  if (lookupKey st name).isSome then
    (.ok (), setKey st name now, false)
  else
    let st' := cleanup_cache cap st
    if loadOk name then
      (.ok (), st' ++ [(name, now)], true)
    else
      (.error ("Error loading model " ++ name), st', false)

/-! ## Voice profile store (`custom/api/voice.py`) -/

/-- A validated `VoiceCloneRequest`. -/
structure VoiceCloneRequest where
  reference_audio : String
  name : String
  description : Option String
  language : Option String
deriving Repr, DecidableEq

/-- The per-profile metadata dict written to `<id>.json` and cached in
`self.voices`. -/
structure VoiceData where
  id : String
  name : String
  description : Option String
  language : Option String
  created_at : String
  embedding_path : String
deriving Repr, DecidableEq

/-- The observable state of the voice store: the set of paths existing in
the voices directory and the in-memory metadata cache keyed by id. -/
structure VoiceState where
  files : List String
  voices : List (String × VoiceData)
deriving Repr, DecidableEq

/-- `self.voices_dir / f"{voice_id}.pt"`. -/
def embPath (dir voice_id : String) : String := dir ++ "/" ++ voice_id ++ ".pt"

/-- `self.voices_dir / f"{voice_id}.json"`. -/
def metaPath (dir voice_id : String) : String := dir ++ "/" ++ voice_id ++ ".json"

/-- Creating a file at a path (`torch.save` / `json.dump` to an opened
file): the path exists afterwards, once. -/
def writeFile (fs : List String) (p : String) : List String :=
  if p ∈ fs then fs else fs ++ [p]

/-- `Path.unlink` guarded by `Path.exists`: the path is gone afterwards. -/
def unlinkFile (fs : List String) (p : String) : List String :=
  fs.filter (fun q => q ≠ p)

/-- `Voice.clone_voice`: obtain the speech model (`modelLoad`), decode the
base64 reference audio (`dec`; a failure raises HTTP 400, which the outer
handler rewraps as 500), extract embeddings (`extract`), write the
embedding file and the metadata file under the timestamp-generated
`voice_id`, register the profile in the cache, and return the id and name. -/
def clone_voice (dir : String) (modelLoad : Except String Unit)
    (dec extract : String → Except String String)
    (voice_id createdAt : String) (st : VoiceState) (p : VoiceCloneRequest) :
    Except HTTPError (String × String) × VoiceState :=
  match modelLoad with
  | .error e => (.error ⟨500, "Voice cloning failed: " ++ e⟩, st)
  | .ok _ =>
    match dec p.reference_audio with
    | .error e =>
      (.error ⟨500, "Voice cloning failed: " ++
        HTTPError.str ⟨400, "Invalid reference audio format: " ++ e⟩⟩, st)
    | .ok bytes =>
      match extract bytes with
      | .error e => (.error ⟨500, "Voice cloning failed: " ++ e⟩, st)
      | .ok _emb =>
        let vd : VoiceData :=
          ⟨voice_id, p.name, p.description, p.language, createdAt,
           embPath dir voice_id⟩
        let fs1 := writeFile st.files (embPath dir voice_id)
        let fs2 := writeFile fs1 (metaPath dir voice_id)
        (.ok (voice_id, p.name), ⟨fs2, setKey st.voices voice_id vd⟩)

/-- `Voice.get_voice`: stored metadata, or HTTP 404 for an unknown id. -/
def get_voice (st : VoiceState) (voice_id : String) : Except HTTPError VoiceData :=
  match lookupKey st.voices voice_id with
  | none => .error ⟨404, "Voice not found: " ++ voice_id⟩
  | some vd => .ok vd

/-- `Voice.delete_voice`: HTTP 404 for an unknown id; otherwise unlink the
embedding file (at the recorded `embedding_path`) and the metadata file
when they exist, and drop the cache entry. -/
def delete_voice (dir : String) (st : VoiceState) (voice_id : String) :
    Except HTTPError String × VoiceState :=
  match lookupKey st.voices voice_id with
  | none => (.error ⟨404, "Voice not found: " ++ voice_id⟩, st)
  | some vd =>
    let fs1 := unlinkFile st.files vd.embedding_path
    let fs2 := unlinkFile fs1 (metaPath dir voice_id)
    (.ok ("Voice " ++ voice_id ++ " deleted successfully"),
     ⟨fs2, delKey st.voices voice_id⟩)

/-- `Voice.get_voice_embeddings`: HTTP 404 for an unknown id; a missing
backing file raises `FileNotFoundError`, caught and rewrapped as HTTP 500;
otherwise the tensor is loaded (`load` oracle). -/
def get_voice_embeddings (load : String → Except String String)
    (st : VoiceState) (voice_id : String) : Except HTTPError String :=
  match lookupKey st.voices voice_id with
  | none => .error ⟨404, "Voice not found: " ++ voice_id⟩
  | some vd =>
    if vd.embedding_path ∈ st.files then
      match load vd.embedding_path with
      | .ok t => .ok t
      | .error e => .error ⟨500, "Error loading voice embeddings: " ++ e⟩
    else
      .error ⟨500, "Error loading voice embeddings: Voice embeddings file not found: "
        ++ vd.embedding_path⟩

/-! ## Serverless job dispatcher (`custom/handler.py`) -/

/-- The fields of the `params` dict that `_route_request` itself reads
(`voice_id`); everything else is consumed opaquely by the per-endpoint
service, which the embedding abstracts as the `svc` oracle. -/
structure Params where
  voice_id : Option String
deriving Repr, DecidableEq

/-- A raised Python exception: either a `fastapi.HTTPException` or any
other exception rendered by its message. -/
inductive PyErr
  | http (e : HTTPError)
  | other (msg : String)
deriving Repr, DecidableEq

/-- The eight endpoint names `_route_request` dispatches on. -/
def dispatchNames : List String :=
  ["generate_speech", "batch_generate_speech", "agent_chat",
   "batch_agent_chat", "clone_voice", "list_voices", "get_voice",
   "delete_voice"]

/-- How Python renders the endpoint inside `f"Unknown endpoint: {endpoint}"`
(an absent key prints as `None`). -/
def endpointName : Option String → String
  | none => "None"
  | some s => s

/-- `RunPodHandler._route_request`: exact-match dispatch on the endpoint
name; `get_voice`/`delete_voice` first require a truthy `voice_id`
(HTTP 400 otherwise); any other endpoint value fails with HTTP 404 naming
the endpoint.  `svc` abstracts the eight service bodies, which may
themselves raise (`PyErr`). -/
def route_request (svc : String → Params → Except PyErr String)
    (endpoint : Option String) (params : Params) : Except PyErr String :=
  if endpoint = some "generate_speech" then svc "generate_speech" params
  else if endpoint = some "batch_generate_speech" then
    svc "batch_generate_speech" params
  else if endpoint = some "agent_chat" then svc "agent_chat" params
  else if endpoint = some "batch_agent_chat" then svc "batch_agent_chat" params
  else if endpoint = some "clone_voice" then svc "clone_voice" params
  else if endpoint = some "list_voices" then svc "list_voices" params
  else if endpoint = some "get_voice" then
    if falsyStr params.voice_id then .error (.http ⟨400, "voice_id is required"⟩)
    else svc "get_voice" params
  else if endpoint = some "delete_voice" then
    if falsyStr params.voice_id then .error (.http ⟨400, "voice_id is required"⟩)
    else svc "delete_voice" params
  else .error (.http ⟨404, "Unknown endpoint: " ++ endpointName endpoint⟩)

/-- The `input` dict of a job, with the fields the handler reads.  A
missing or empty (falsy) `input` is represented as `none` on the `Job`. -/
structure JobInput where
  api_key : Option String
  endpoint : Option String
  params : Params
deriving Repr, DecidableEq

/-- One serverless job event. -/
structure Job where
  id : Option String
  input : Option JobInput
deriving Repr, DecidableEq

/-- The returned job envelope: the job id, a status string, and either an
output or a `{code, detail}` error body. -/
structure Envelope where
  id : String
  status : String
  output : Option String
  error : Option HTTPError
deriving Repr, DecidableEq

/-- `RunPodHandler.handler`: default the job id to `"unknown"`; reject a
missing/empty input with HTTP 400 before authentication; authenticate
(consuming rate-limit budget); route; and wrap every outcome — success,
`HTTPException`, or any other exception (code 500) — into the envelope.
The final boolean records whether authentication was reached. -/
def handler (configured : String) (now : ℤ) (rl : RLState)
    (svc : String → Params → Except PyErr String) (job : Job) :
    Envelope × RLState × Bool :=
  let job_id := job.id.getD "unknown"
  match job.input with
  | none =>
    (⟨job_id, "error", none, some ⟨400, "No input provided"⟩⟩, rl, false)
  | some input =>
    let auth := authenticate_request configured now .default rl input.api_key
    match auth.1 with
    | .error e => (⟨job_id, "error", none, some e⟩, auth.2, true)
    | .ok _ =>
      match route_request svc input.endpoint input.params with
      | .ok out => (⟨job_id, "success", some out, none⟩, auth.2, true)
      | .error (.http e) => (⟨job_id, "error", none, some e⟩, auth.2, true)
      | .error (.other msg) =>
        (⟨job_id, "error", none, some ⟨500, msg⟩⟩, auth.2, true)

/-! ## Helper lemmas -/

deriving instance DecidableEq for Except

theorem foldl_minBy_mem (e : String × ℤ) (l : List (String × ℤ)) :
    l.foldl (fun best x => if x.2 < best.2 then x else best) e ∈ e :: l := by
  induction l generalizing e with
  | nil => simp
  | cons hd tl ih =>
    have h := ih (if hd.2 < e.2 then hd else e)
    simp only [List.foldl_cons]
    rcases List.mem_cons.mp h with h1 | h1
    · rw [h1]
      split
      · exact List.mem_cons_of_mem _ (List.mem_cons_self _ _)
      · exact List.mem_cons_self _ _
    · exact List.mem_cons_of_mem _ (List.mem_cons_of_mem _ h1)

theorem foldl_minBy_le (e : String × ℤ) (l : List (String × ℤ)) :
    ∀ x ∈ e :: l,
      (l.foldl (fun best x => if x.2 < best.2 then x else best) e).2 ≤ x.2 := by
  induction l generalizing e with
  | nil => intro x hx; simp at hx; simp [hx]
  | cons hd tl ih =>
    intro x hx
    simp only [List.foldl_cons]
    have hbe : (if hd.2 < e.2 then hd else e).2 ≤ e.2 := by
      split
      · omega
      · exact le_refl _
    have hbh : (if hd.2 < e.2 then hd else e).2 ≤ hd.2 := by
      split
      · exact le_refl _
      · omega
    rcases List.mem_cons.mp hx with rfl | hx1
    · exact le_trans (ih _ _ (List.mem_cons_self _ _)) hbe
    · rcases List.mem_cons.mp hx1 with rfl | hx2
      · exact le_trans (ih _ _ (List.mem_cons_self _ _)) hbh
      · exact ih _ _ (List.mem_cons_of_mem _ hx2)

theorem minBySnd_mem (st : CacheState) (e : String × ℤ)
    (h : minBySnd st = some e) : e ∈ st := by
  cases st with
  | nil => simp [minBySnd] at h
  | cons hd tl =>
    simp only [minBySnd, Option.some.injEq] at h
    exact h ▸ foldl_minBy_mem hd tl

theorem minBySnd_le (st : CacheState) (e : String × ℤ)
    (h : minBySnd st = some e) : ∀ x ∈ st, e.2 ≤ x.2 := by
  cases st with
  | nil => simp [minBySnd] at h
  | cons hd tl =>
    simp only [minBySnd, Option.some.injEq] at h
    exact h ▸ foldl_minBy_le hd tl

theorem minBySnd_isSome (st : CacheState) (h : st ≠ []) :
    (minBySnd st).isSome = true := by
  cases st with
  | nil => exact absurd rfl h
  | cons hd tl => simp [minBySnd]

theorem delKey_length_le {α : Type} (st : List (String × α)) (k : String) :
    (delKey st k).length ≤ st.length :=
  List.length_filter_le _ _

theorem delKey_length_lt {α : Type} (st : List (String × α)) (e : String × α)
    (hmem : e ∈ st) : (delKey st e.1).length < st.length := by
  induction st with
  | nil => simp at hmem
  | cons hd tl ih =>
    rcases List.mem_cons.mp hmem with rfl | h
    · simp only [delKey, List.filter_cons, ne_eq, not_true_eq_false,
        decide_False, List.length_cons]
      exact Nat.lt_succ_of_le (List.length_filter_le _ _)
    · by_cases hne : hd.1 ≠ e.1
      · simpa [delKey, List.filter_cons, hne] using ih h
      · simp only [delKey, List.filter_cons, hne, decide_False,
          List.length_cons]
        exact Nat.lt_succ_of_le (le_of_lt (ih h))

theorem delKey_length_nodup (st : CacheState) (e : String × ℤ)
    (hmem : e ∈ st) (hnd : (st.map Prod.fst).Nodup) :
    (delKey st e.1).length = st.length - 1 := by
  induction st with
  | nil => simp at hmem
  | cons hd tl ih =>
    simp only [List.map_cons, List.nodup_cons] at hnd
    rcases List.mem_cons.mp hmem with rfl | h
    · have htl : delKey tl e.1 = tl := by
        apply List.filter_eq_self.mpr
        intro x hx
        have hx1 : x.1 ≠ e.1 := by
          intro hc
          exact hnd.1 (hc ▸ List.mem_map_of_mem Prod.fst hx)
        simpa using hx1
      have hstep : delKey (e :: tl) e.1 = delKey tl e.1 := by
        simp [delKey]
      rw [hstep, htl]
      simp
    · have hne : hd.1 ≠ e.1 := by
        intro hc
        exact hnd.1 (hc ▸ List.mem_map_of_mem Prod.fst h)
      have hlen : 1 ≤ tl.length := List.length_pos.mpr (List.ne_nil_of_mem h)
      have hstep : delKey (hd :: tl) e.1 = hd :: delKey tl e.1 := by
        simp [delKey, List.filter_cons, hne]
      rw [hstep]
      simp only [List.length_cons]
      rw [ih h hnd.2]
      omega

theorem setKey_length_of_found {α : Type} (st : List (String × α)) (k : String)
    (v : α) (h : (lookupKey st k).isSome = true) :
    (setKey st k v).length = st.length := by
  induction st with
  | nil => simp [lookupKey] at h
  | cons hd tl ih =>
    by_cases hk : hd.1 = k
    · simp [setKey, hk]
    · simp only [lookupKey, List.find?_cons] at h
      rw [setKey]
      split
      · simp
      · rename_i hk2
        simp only [List.length_cons, Nat.succ.injEq]
        apply ih
        simp only [lookupKey]
        simpa [hk] using h

theorem lookupKey_setKey {α : Type} (st : List (String × α)) (k : String) (v : α) :
    lookupKey (setKey st k v) k = some v := by
  induction st with
  | nil => simp [setKey, lookupKey]
  | cons hd tl ih =>
    by_cases h : hd.1 = k
    · simp [setKey, h, lookupKey]
    · simpa [setKey, h, lookupKey] using ih

theorem lookupKey_delKey {α : Type} (st : List (String × α)) (k : String) :
    lookupKey (delKey st k) k = none := by
  induction st with
  | nil => rfl
  | cons hd tl ih =>
    by_cases h : hd.1 = k
    · have hstep : delKey (hd :: tl) k = delKey tl k := by
        simp [delKey, h]
      rw [hstep]
      exact ih
    · have hstep : delKey (hd :: tl) k = hd :: delKey tl k := by
        simp [delKey, h]
      rw [hstep]
      simpa [lookupKey, List.find?_cons, h] using ih

theorem not_mem_unlink (fs : List String) (p : String) : p ∉ unlinkFile fs p := by
  intro h
  have hq := List.of_mem_filter h
  simp at hq

theorem mem_of_mem_unlink (fs : List String) (p q : String)
    (h : q ∈ unlinkFile fs p) : q ∈ fs :=
  List.mem_of_mem_filter h

theorem cleanup_cache_length_lt (cap : ℕ) (st : CacheState) (hcap : 1 ≤ cap)
    (hlen : st.length ≤ cap) : (cleanup_cache cap st).length < cap := by
  unfold cleanup_cache
  split
  · rename_i hge
    have hne : st ≠ [] := by
      intro h
      subst h
      simp at hge
      omega
    cases hmin : minBySnd st with
    | none =>
      have hs := minBySnd_isSome st hne
      rw [hmin] at hs
      simp at hs
    | some lru =>
      simp only
      have hlt := delKey_length_lt st lru (minBySnd_mem st lru hmin)
      omega
  · rename_i hlt
    omega

/-! ## Claim theorems -/

/-- C2: for a default-tier key, a call is admitted iff fewer than 10
timestamps survive pruning to the trailing 60-second window; the stored
list is the pruned one with the current time appended exactly on
admission; concretely, after ten admitted calls at seconds 0–9 the
eleventh call at second 30 is rejected by `authenticate_request` with
code 429, and a call at second 60 (the window fully elapsed since the
first call) is admitted again. -/
theorem C2_rate_limiter_window :
    (∀ (st : RLState) (k : String) (now : ℤ),
        (is_rate_limited now .default st k).1 = false ↔
          (pruneWindow 60 now ((lookupKey st k).getD [])).length < 10)
    ∧ (∀ (st : RLState) (k : String) (now : ℤ),
        lookupKey (is_rate_limited now .default st k).2 k =
          some (
            if 10 ≤ (pruneWindow 60 now ((lookupKey st k).getD [])).length then
              pruneWindow 60 now ((lookupKey st k).getD [])
            else
              pruneWindow 60 now ((lookupKey st k).getD []) ++ [now]))
    ∧ (callResults .default "secret" [] [0,1,2,3,4,5,6,7,8,9]).1 =
        [false, false, false, false, false, false, false, false, false, false]
    ∧ (authenticate_request "secret" 30 .default
         (callResults .default "secret" [] [0,1,2,3,4,5,6,7,8,9]).2
         (some "secret")).1 =
        .error ⟨429, "Rate limit exceeded. Try again in 60 seconds"⟩
    ∧ (authenticate_request "secret" 60 .default
         (authenticate_request "secret" 30 .default
           (callResults .default "secret" [] [0,1,2,3,4,5,6,7,8,9]).2
           (some "secret")).2
         (some "secret")).1 = .ok () := by
  refine ⟨?_, ?_, by decide, by decide, by decide⟩
  · intro st k now
    simp only [is_rate_limited, tierCalls, tierWindow]
    split
    · rename_i h
      simp only [reduceCtorEq, false_iff, not_lt]
      exact h
    · rename_i h
      simp only [true_iff]
      omega
  · intro st k now
    simp only [is_rate_limited, tierCalls, tierWindow]
    split
    · rw [lookupKey_setKey]
    · rw [lookupKey_setKey]

/-- C1 (code evidence): the classmethod `validate_voice_source` would
reject a request with neither `reference_audio` nor `speaker_id`, but it is
never wired into pydantic validation, so constructing such a request
succeeds and `generate_speech` reaches the `model.generate` call with no
voice source at all; the `emotion` regex, by contrast, is enforced at
construction, so `emotion="angry"` is rejected. -/
theorem C1_voice_source_not_enforced :
    mkGenerateSpeechRequest ⟨"hello", none, none, none, none, none⟩ =
      .ok ⟨"hello", none, none, none, none, 1⟩
    ∧ validate_voice_source ⟨"hello", none, none, none, none, none⟩ =
        .error "Either reference_audio or speaker_id must be provided"
    ∧ (generate_speech (fun _ => "")
         (.ok ⟨44100, fun _ => .ok [0]⟩)
         (fun s => .ok s)
         ⟨"hello", none, none, none, none, 1⟩).2 =
        some ⟨"hello", none, 1, none, none, none⟩
    ∧ mkGenerateSpeechRequest ⟨"hello", none, none, none, some "angry", none⟩ =
        .error "emotion string does not match regex" := by
  refine ⟨?_, ?_, ?_, ?_⟩ <;> rfl

/-- C10: a request supplying both `reference_audio` and `speaker_id` is
accepted (neither the field constraints nor `validate_voice_source` reject
a double voice source), and `generate_speech` passes only the decoded
reference audio to the model, leaving `speaker_id` out of the model input. -/
theorem C10_speaker_id_ignored (p : SpeechParams) (ra sid : String)
    (h1 : p.reference_audio = some ra) (h2 : ra ≠ "")
    (h3 : p.speaker_id = some sid)
    (htext : 1 ≤ p.text.length ∧ p.text.length ≤ 2000)
    (hemo : emotionAllowed p.emotion = true)
    (hspd : speedOk p.speed = true)
    (enc : List ℚ → String) (model : SpeechModel)
    (dec : String → Except String String) (bytes : String)
    (hdec : dec ra = .ok bytes) :
    validate_voice_source p = .ok p
    ∧ mkGenerateSpeechRequest p =
        .ok ⟨p.text, p.reference_audio, p.speaker_id, p.language, p.emotion,
             p.speed.getD 1⟩
    ∧ (generate_speech enc (.ok model) dec
         ⟨p.text, p.reference_audio, p.speaker_id, p.language, p.emotion,
          p.speed.getD 1⟩).2 =
        some ⟨p.text, p.language, p.speed.getD 1, some bytes, none,
              if falsyStr p.emotion then none else p.emotion⟩ := by
  refine ⟨?_, ?_, ?_⟩
  · simp [validate_voice_source, falsyStr, h1, h2]
  · simp [mkGenerateSpeechRequest, htext, hemo, hspd]
  · have hbuild : buildSpeechInput dec
        ⟨p.text, p.reference_audio, p.speaker_id, p.language, p.emotion,
         p.speed.getD 1⟩ =
        .ok ⟨p.text, p.language, p.speed.getD 1, some bytes, none,
             if falsyStr p.emotion then none else p.emotion⟩ := by
      simp [buildSpeechInput, h1, h2, hdec]
    simp only [generate_speech, hbuild]
    cases model.generate ⟨p.text, p.language, p.speed.getD 1, some bytes, none,
        if falsyStr p.emotion then none else p.emotion⟩ <;> rfl

/-- Witness for C10 at a concrete request carrying both voice sources. -/
theorem C10_speaker_id_ignored_witness :
    validate_voice_source ⟨"hi", some "QUJD", some "spk", none, none, none⟩ =
      .ok ⟨"hi", some "QUJD", some "spk", none, none, none⟩
    ∧ mkGenerateSpeechRequest ⟨"hi", some "QUJD", some "spk", none, none, none⟩ =
        .ok ⟨"hi", some "QUJD", some "spk", none, none, 1⟩
    ∧ (generate_speech (fun _ => "")
         (.ok ⟨44100, fun _ => .ok [0]⟩)
         (fun s => .ok ("dec" ++ s))
         ⟨"hi", some "QUJD", some "spk", none, none, 1⟩).2 =
        some ⟨"hi", none, 1, some ("dec" ++ "QUJD"), none, none⟩ := by
  have h := C10_speaker_id_ignored
    ⟨"hi", some "QUJD", some "spk", none, none, none⟩ "QUJD" "spk"
    rfl (by decide) rfl (by decide) (by decide) (by decide)
    (fun _ => "") (⟨44100, fun _ => Except.ok [0]⟩ : SpeechModel)
    (fun s => Except.ok ("dec" ++ s)) ("dec" ++ "QUJD") rfl
  exact h

/-- C5: in a non-streaming chat with (truthy) reference audio, when the
agent model loads, primary generation succeeds with reply `r`, the speech
model loads, but the synthesis pipeline fails, the call still returns a
completed result with status `partial_success`, the reply text intact
(non-empty when the reply is), and an explanatory error message. -/
theorem C5_synth_failure_keeps_text (d : ChatDeps) (st : Conversations)
    (p : AgentChatRequest) (ra r e : String) (model : ChatSpeechModel)
    (hstream : p.stream = false)
    (hra : p.reference_audio = some ra) (hra2 : ra ≠ "")
    (hload : d.agentLoad = .ok ())
    (hgen : d.agentGen (chatConversation st p) = .ok r)
    (hsl : d.speechLoad = .ok model)
    (hsynth : chatSynth d model r ra = .error e)
    (hr : r ≠ "") :
    ∃ res : ChatResult,
      (chat d st p).1 = .ok (.complete res)
      ∧ res.status = "partial_success"
      ∧ res.text = r ∧ res.text ≠ ""
      ∧ res.error = some ("Speech generation failed: " ++ e) := by
  refine ⟨⟨"partial_success", r, none, none,
    some ("Speech generation failed: " ++ e)⟩, ?_, rfl, rfl, hr, rfl⟩
  simp only [chat, hload, hstream, hgen, hra, hsl, hsynth, hra2,
    Bool.false_eq_true, if_false]

/-- Witness for C5 at a concrete request and failing synthesis oracle. -/
theorem C5_synth_failure_keeps_text_witness :
    ∃ res : ChatResult,
      (chat
        ⟨.ok (), fun _ => .ok "hi there",
         .ok ⟨44100, fun _ _ => .error "boom"⟩,
         fun s => .ok s, fun _ => ""⟩
        []
        ⟨"hello", none, some "QUJD", false, 7/10, 1000⟩).1 = .ok (.complete res)
      ∧ res.status = "partial_success"
      ∧ res.text = "hi there" ∧ res.text ≠ ""
      ∧ res.error = some ("Speech generation failed: " ++ "boom") :=
  C5_synth_failure_keeps_text
    ⟨.ok (), fun _ => .ok "hi there",
     .ok ⟨44100, fun _ _ => .error "boom"⟩,
     fun s => .ok s, fun _ => ""⟩
    []
    ⟨"hello", none, some "QUJD", false, 7/10, 1000⟩
    "QUJD" "hi there" "boom" ⟨44100, fun _ _ => .error "boom"⟩
    rfl rfl (by decide) rfl rfl rfl rfl (by decide)

/-- C9: in a non-streaming chat with a (truthy) conversation id and
(truthy) reference audio, once primary generation succeeds the stored
conversation state equals the appended-and-truncated history — an
expression independent of the speech-model load and synthesis oracles, so
the state is identical whether the call ends in `success` or
`partial_success`. -/
theorem C9_history_independent_of_synthesis (d : ChatDeps) (st : Conversations)
    (p : AgentChatRequest) (cid ra r : String)
    (hstream : p.stream = false)
    (hcid : p.conversation_id = some cid) (hcid2 : cid ≠ "")
    (hra : p.reference_audio = some ra) (hra2 : ra ≠ "")
    (hload : d.agentLoad = .ok ())
    (hgen : d.agentGen (chatConversation st p) = .ok r) :
    (chat d st p).2 =
      setKey st cid (updateConversation (chatConversation st p) p.message r) := by
  simp only [chat, hload, hstream, hgen, hcid, hra, hcid2, hra2,
    Bool.false_eq_true, if_false]
  cases d.speechLoad with
  | error e => rfl
  | ok model =>
    cases hs : chatSynth d model r ra with
    | error e => simp [hs]
    | ok pr => simp [hs]

/-- Witness for C9: the state after a call whose synthesis fails equals
the appended-and-truncated history. -/
theorem C9_history_independent_of_synthesis_witness :
    (chat
      ⟨.ok (), fun _ => .ok "yo",
       .ok ⟨44100, fun _ _ => .error "boom"⟩,
       fun s => .ok s, fun _ => ""⟩
      []
      ⟨"hello", some "c1", some "QUJD", false, 7/10, 1000⟩).2 =
      setKey [] "c1"
        (updateConversation
          (chatConversation [] ⟨"hello", some "c1", some "QUJD", false, 7/10, 1000⟩)
          "hello" "yo") :=
  C9_history_independent_of_synthesis
    ⟨.ok (), fun _ => .ok "yo",
     .ok ⟨44100, fun _ _ => .error "boom"⟩,
     fun s => .ok s, fun _ => ""⟩
    []
    ⟨"hello", some "c1", some "QUJD", false, 7/10, 1000⟩
    "c1" "QUJD" "yo"
    rfl rfl (by decide) rfl (by decide) rfl rfl

/-- C6: every streamed event sequence ends with exactly one terminal
event — all earlier events are token or audio-chunk events, the final one
is `complete` or `error`, and a `complete` terminal occurs only on the
success path after all token events and (when present) all chunk events. -/
theorem C6_stream_termination (tokens : List String) (tokenErr : Option String)
    (chunks : List String) (audioErr : Option String) (ref : Option String) :
    ∃ pre last,
      stream_response tokens tokenErr chunks audioErr ref = pre ++ [last]
      ∧ (last.status = "complete" ∨ last.status = "error")
      ∧ (∀ ev ∈ pre, ev.status = "streaming" ∨ ev.status = "streaming_audio")
      ∧ (last.status = "complete" →
          tokenErr = none ∧
            (pre = tokens.map tokenEvent
              ∨ pre = tokens.map tokenEvent ++ chunks.map chunkEvent)) := by
  have htok : ∀ ev ∈ tokens.map tokenEvent,
      ev.status = "streaming" ∨ ev.status = "streaming_audio" := by
    intro ev hev
    rcases List.mem_map.mp hev with ⟨t, _, rfl⟩
    exact Or.inl rfl
  have hboth : ∀ ev ∈ tokens.map tokenEvent ++ chunks.map chunkEvent,
      ev.status = "streaming" ∨ ev.status = "streaming_audio" := by
    intro ev hev
    rcases List.mem_append.mp hev with h | h
    · exact htok ev h
    · rcases List.mem_map.mp h with ⟨c, _, rfl⟩
      exact Or.inr rfl
  cases tokenErr with
  | some e =>
    exact ⟨tokens.map tokenEvent, errorEvent e, rfl, Or.inr rfl, htok,
      fun h => by simp [errorEvent] at h⟩
  | none =>
    by_cases hf : falsyStr ref = true
    · refine ⟨tokens.map tokenEvent, completeEvent, ?_, Or.inl rfl, htok,
        fun _ => ⟨rfl, Or.inl rfl⟩⟩
      simp [stream_response, hf]
    · cases audioErr with
      | some e =>
        refine ⟨tokens.map tokenEvent ++ chunks.map chunkEvent, errorEvent e,
          ?_, Or.inr rfl, hboth, fun h => by simp [errorEvent] at h⟩
        simp [stream_response, hf, List.append_assoc]
      | none =>
        refine ⟨tokens.map tokenEvent ++ chunks.map chunkEvent, completeEvent,
          ?_, Or.inl rfl, hboth, fun _ => ⟨rfl, Or.inr rfl⟩⟩
        simp [stream_response, hf, List.append_assoc]

/-- Witness for C6 at a concrete failing audio phase. -/
theorem C6_stream_termination_witness :
    ∃ pre last,
      stream_response ["a", "b"] none ["c"] (some "boom") (some "ref") =
        pre ++ [last]
      ∧ (last.status = "complete" ∨ last.status = "error")
      ∧ (∀ ev ∈ pre, ev.status = "streaming" ∨ ev.status = "streaming_audio")
      ∧ (last.status = "complete" →
          (none : Option String) = none ∧
            (pre = ["a", "b"].map tokenEvent
              ∨ pre = ["a", "b"].map tokenEvent ++ ["c"].map chunkEvent)) :=
  C6_stream_termination ["a", "b"] none ["c"] (some "boom") (some "ref")

/-- C3: the cache never exceeds its capacity (any sequence of `get_model`
calls preserves `length ≤ cap`, so by induction from the empty cache the
bound always holds); on a miss at capacity exactly the single entry with
the least-recent `last_used` timestamp is evicted before the new entry is
inserted; and concretely with capacity 2, loading `A`, `B`, then `C`
evicts `A`, leaves `B` and `C` cached, and a later request for `A` runs a
fresh load. -/
theorem C3_model_cache_lru :
    (∀ (loadOk : String → Bool) (cap : ℕ) (now : ℤ) (st : CacheState)
        (name : String), 1 ≤ cap → st.length ≤ cap →
        (get_model loadOk cap now st name).2.1.length ≤ cap)
    ∧ (∀ (loadOk : String → Bool) (cap : ℕ) (now : ℤ) (st : CacheState)
        (name : String),
        lookupKey st name = none → st.length = cap → 1 ≤ cap →
        (st.map Prod.fst).Nodup → loadOk name = true →
        ∃ lru, minBySnd st = some lru ∧ lru ∈ st ∧
          (∀ x ∈ st, lru.2 ≤ x.2) ∧
          (get_model loadOk cap now st name).2.1 =
            delKey st lru.1 ++ [(name, now)] ∧
          (delKey st lru.1).length = st.length - 1)
    ∧ (get_model (fun _ => true) 2 1 [] "A").2 = ([("A", 1)], true)
    ∧ (get_model (fun _ => true) 2 2 [("A", 1)] "B").2 =
        ([("A", 1), ("B", 2)], true)
    ∧ (get_model (fun _ => true) 2 3 [("A", 1), ("B", 2)] "C").2 =
        ([("B", 2), ("C", 3)], true)
    ∧ (get_model (fun _ => true) 2 4 [("B", 2), ("C", 3)] "A").2 =
        ([("C", 3), ("A", 4)], true) := by
  refine ⟨?_, ?_, by decide, by decide, by decide, by decide⟩
  · intro loadOk cap now st name hcap hlen
    unfold get_model
    by_cases hhit : (lookupKey st name).isSome = true
    · simp only [hhit, if_true]
      rw [setKey_length_of_found st name now hhit]
      exact hlen
    · simp only [hhit, if_false, Bool.false_eq_true]
      have hclean := cleanup_cache_length_lt cap st hcap hlen
      by_cases hload : loadOk name = true
      · simp only [hload, if_true, List.length_append, List.length_cons,
          List.length_nil]
        omega
      · simp only [hload, if_false, Bool.false_eq_true]
        omega
  · intro loadOk cap now st name hmiss hlen hcap hnd hload
    have hne : st ≠ [] := by
      intro h
      subst h
      simp at hlen
      omega
    obtain ⟨lru, hmin⟩ := Option.isSome_iff_exists.mp (minBySnd_isSome st hne)
    refine ⟨lru, hmin, minBySnd_mem st lru hmin, minBySnd_le st lru hmin,
      ?_, delKey_length_nodup st lru (minBySnd_mem st lru hmin) hnd⟩
    unfold get_model
    simp only [hmiss, Option.isSome_none, Bool.false_eq_true, if_false, hload,
      if_true]
    unfold cleanup_cache
    rw [if_pos (le_of_eq hlen.symm), hmin]

/-- Witness for C3's quantified parts at concrete cache states. -/
theorem C3_model_cache_lru_witness :
    ((get_model (fun _ => true) 2 5 [("A", 1)] "B").2.1.length ≤ 2)
    ∧ (∃ lru, minBySnd [("A", 1), ("B", 2)] = some lru ∧
        lru ∈ [("A", 1), ("B", 2)] ∧
        (∀ x ∈ [("A", 1), ("B", 2)], lru.2 ≤ x.2) ∧
        (get_model (fun _ => true) 2 3 [("A", 1), ("B", 2)] "C").2.1 =
          delKey ([("A", 1), ("B", 2)] : CacheState) lru.1 ++ [("C", 3)] ∧
        (delKey ([("A", 1), ("B", 2)] : CacheState) lru.1).length =
          ([("A", 1), ("B", 2)] : CacheState).length - 1) :=
  ⟨C3_model_cache_lru.1 (fun _ => true) 2 5 [("A", 1)] "B"
      (by decide) (by decide),
   C3_model_cache_lru.2.1 (fun _ => true) 2 3 [("A", 1), ("B", 2)] "C"
      (by decide) (by decide) (by decide) (by decide) rfl⟩

/-- C7: every history update appends the user and assistant turns and
keeps only the 10 most recent messages, dropping the oldest first; after
6 rounds (12 messages) under one conversation id exactly the most recent
10 remain. -/
theorem C7_conversation_truncation :
    (∀ (hist : List ChatMsg) (u a : String),
        (updateConversation hist u a).length ≤ 10
        ∧ ∃ dropped,
            dropped ++ updateConversation hist u a =
              hist ++ [⟨"user", u⟩, ⟨"assistant", a⟩]
            ∧ dropped.length = (hist.length + 2) - 10)
    ∧ ∀ (u1 a1 u2 a2 u3 a3 u4 a4 u5 a5 u6 a6 : String),
        runRounds [(u1,a1),(u2,a2),(u3,a3),(u4,a4),(u5,a5),(u6,a6)] [] =
          [⟨"user",u2⟩,⟨"assistant",a2⟩,⟨"user",u3⟩,⟨"assistant",a3⟩,
           ⟨"user",u4⟩,⟨"assistant",a4⟩,⟨"user",u5⟩,⟨"assistant",a5⟩,
           ⟨"user",u6⟩,⟨"assistant",a6⟩] := by
  constructor
  · intro hist u a
    constructor
    · simp only [updateConversation, lastTen, List.length_drop]
      omega
    · refine ⟨(hist ++ [ChatMsg.mk "user" u, ChatMsg.mk "assistant" a]).take
        ((hist.length + 2) - 10), ?_, ?_⟩
      · simp only [updateConversation, lastTen, List.length_append,
          List.length_cons, List.length_nil]
        exact List.take_append_drop _ _
      · simp only [List.length_take, List.length_append, List.length_cons,
          List.length_nil]
        omega
  · intro u1 a1 u2 a2 u3 a3 u4 a4 u5 a5 u6 a6
    simp [runRounds, updateConversation, lastTen]

/-- C8: a successful clone produces a profile retrievable under the
returned id with the requested name; deleting it makes `get_voice` and
`get_voice_embeddings` fail with HTTP 404 and leaves neither the metadata
file nor the embedding file in the voices directory. -/
theorem C8_voice_profile_round_trip (dir : String)
    (modelLoad : Except String Unit)
    (dec extract load : String → Except String String)
    (voice_id createdAt bytes emb : String)
    (st : VoiceState) (p : VoiceCloneRequest)
    (hml : modelLoad = .ok ())
    (hdec : dec p.reference_audio = .ok bytes)
    (hext : extract bytes = .ok emb) :
    ∃ vd st1 st2,
      clone_voice dir modelLoad dec extract voice_id createdAt st p =
        (.ok (voice_id, p.name), st1)
      ∧ get_voice st1 voice_id = .ok vd
      ∧ vd.name = p.name
      ∧ delete_voice dir st1 voice_id =
          (.ok ("Voice " ++ voice_id ++ " deleted successfully"), st2)
      ∧ get_voice st2 voice_id = .error ⟨404, "Voice not found: " ++ voice_id⟩
      ∧ get_voice_embeddings load st2 voice_id =
          .error ⟨404, "Voice not found: " ++ voice_id⟩
      ∧ embPath dir voice_id ∉ st2.files
      ∧ metaPath dir voice_id ∉ st2.files := by
  refine ⟨⟨voice_id, p.name, p.description, p.language, createdAt,
    embPath dir voice_id⟩,
    ⟨writeFile (writeFile st.files (embPath dir voice_id)) (metaPath dir voice_id),
     setKey st.voices voice_id
       ⟨voice_id, p.name, p.description, p.language, createdAt,
        embPath dir voice_id⟩⟩,
    ⟨unlinkFile
       (unlinkFile
         (writeFile (writeFile st.files (embPath dir voice_id))
           (metaPath dir voice_id))
         (embPath dir voice_id))
       (metaPath dir voice_id),
     delKey (setKey st.voices voice_id
       ⟨voice_id, p.name, p.description, p.language, createdAt,
        embPath dir voice_id⟩) voice_id⟩,
    ?_, ?_, rfl, ?_, ?_, ?_, ?_, ?_⟩
  · simp only [clone_voice, hml, hdec, hext]
  · simp only [get_voice, lookupKey_setKey]
  · simp only [delete_voice, lookupKey_setKey]
  · simp only [get_voice, lookupKey_delKey]
  · simp only [get_voice_embeddings, lookupKey_delKey]
  · intro hmem
    exact not_mem_unlink _ _ (mem_of_mem_unlink _ _ _ hmem)
  · exact not_mem_unlink _ _

/-- Witness for C8 at one concrete clone/delete round trip. -/
theorem C8_voice_profile_round_trip_witness :
    ∃ vd st1 st2,
      clone_voice "/app/voices" (.ok ()) (fun s => .ok s) (fun s => .ok s)
          "voice_20240101_000000" "2024-01-01T00:00:00" ⟨[], []⟩
          ⟨"AAA", "alice", none, none⟩ =
        (.ok ("voice_20240101_000000", "alice"), st1)
      ∧ get_voice st1 "voice_20240101_000000" = .ok vd
      ∧ vd.name = "alice"
      ∧ delete_voice "/app/voices" st1 "voice_20240101_000000" =
          (.ok ("Voice " ++ "voice_20240101_000000" ++ " deleted successfully"),
           st2)
      ∧ get_voice st2 "voice_20240101_000000" =
          .error ⟨404, "Voice not found: " ++ "voice_20240101_000000"⟩
      ∧ get_voice_embeddings (fun _ => .ok "tensor") st2
          "voice_20240101_000000" =
          .error ⟨404, "Voice not found: " ++ "voice_20240101_000000"⟩
      ∧ embPath "/app/voices" "voice_20240101_000000" ∉ st2.files
      ∧ metaPath "/app/voices" "voice_20240101_000000" ∉ st2.files := by
  have h := C8_voice_profile_round_trip "/app/voices" (.ok ())
    (fun s => .ok s) (fun s => .ok s) (fun _ => .ok "tensor")
    "voice_20240101_000000" "2024-01-01T00:00:00" "AAA" "AAA"
    ⟨[], []⟩ ⟨"AAA", "alice", none, none⟩ rfl rfl rfl
  exact h

/-- C4: every job yields an envelope carrying the original id (or
`"unknown"`); the envelope is either a success with an output or an error
with a `{code, detail}` body; an empty input yields the 400 error without
authentication being reached; and, once authenticated, an endpoint
matching none of the eight dispatch names yields a 404 error whose detail
names the endpoint. -/
theorem C4_job_envelope (configured : String) (now : ℤ) (rl : RLState)
    (svc : String → Params → Except PyErr String) (job : Job) :
    (handler configured now rl svc job).1.id = job.id.getD "unknown"
    ∧ ((handler configured now rl svc job).1.status = "success"
        ∧ (handler configured now rl svc job).1.error = none
        ∧ (∃ o, (handler configured now rl svc job).1.output = some o)
       ∨ (handler configured now rl svc job).1.status = "error"
        ∧ (handler configured now rl svc job).1.output = none
        ∧ (∃ c d, (handler configured now rl svc job).1.error = some ⟨c, d⟩))
    ∧ (job.input = none →
        (handler configured now rl svc job).1.status = "error"
        ∧ (handler configured now rl svc job).1.error =
            some ⟨400, "No input provided"⟩
        ∧ (handler configured now rl svc job).2.2 = false)
    ∧ (∀ input, job.input = some input →
        (authenticate_request configured now .default rl input.api_key).1 =
          .ok () →
        (∀ n ∈ dispatchNames, input.endpoint ≠ some n) →
        (handler configured now rl svc job).1.status = "error"
        ∧ (handler configured now rl svc job).1.error =
            some ⟨404, "Unknown endpoint: " ++ endpointName input.endpoint⟩) := by
  cases hinp : job.input with
  | none =>
    refine ⟨by simp [handler, hinp], ?_, fun _ => by simp [handler, hinp], ?_⟩
    · right
      refine ⟨by simp [handler, hinp], by simp [handler, hinp], 400,
        "No input provided", by simp [handler, hinp]⟩
    · intro input hcontr
      exact absurd hcontr (by simp)
  | some input =>
    have hid : (handler configured now rl svc job).1.id = job.id.getD "unknown" := by
      cases hauth : (authenticate_request configured now .default rl
          input.api_key).1 with
      | error e => simp [handler, hinp, hauth]
      | ok u =>
        cases hroute : route_request svc input.endpoint input.params with
        | ok o => simp [handler, hinp, hauth, hroute]
        | error pe =>
          cases pe with
          | http e => simp [handler, hinp, hauth, hroute]
          | other m => simp [handler, hinp, hauth, hroute]
    refine ⟨hid, ?_, fun hc => absurd hc (by simp), ?_⟩
    · cases hauth : (authenticate_request configured now .default rl
          input.api_key).1 with
      | error e =>
        right
        exact ⟨by simp [handler, hinp, hauth], by simp [handler, hinp, hauth],
          e.status_code, e.detail, by simp [handler, hinp, hauth]⟩
      | ok u =>
        cases hroute : route_request svc input.endpoint input.params with
        | ok o =>
          left
          exact ⟨by simp [handler, hinp, hauth, hroute],
            by simp [handler, hinp, hauth, hroute],
            o, by simp [handler, hinp, hauth, hroute]⟩
        | error pe =>
          cases pe with
          | http e =>
            right
            exact ⟨by simp [handler, hinp, hauth, hroute],
              by simp [handler, hinp, hauth, hroute],
              e.status_code, e.detail, by simp [handler, hinp, hauth, hroute]⟩
          | other m =>
            right
            exact ⟨by simp [handler, hinp, hauth, hroute],
              by simp [handler, hinp, hauth, hroute],
              500, m, by simp [handler, hinp, hauth, hroute]⟩
    · intro input' hinp' hok hne
      injection hinp' with hinp2
      subst hinp2
      have h1 := hne "generate_speech" (by simp [dispatchNames])
      have h2 := hne "batch_generate_speech" (by simp [dispatchNames])
      have h3 := hne "agent_chat" (by simp [dispatchNames])
      have h4 := hne "batch_agent_chat" (by simp [dispatchNames])
      have h5 := hne "clone_voice" (by simp [dispatchNames])
      have h6 := hne "list_voices" (by simp [dispatchNames])
      have h7 := hne "get_voice" (by simp [dispatchNames])
      have h8 := hne "delete_voice" (by simp [dispatchNames])
      have hroute : route_request svc input.endpoint input.params =
          .error (.http ⟨404, "Unknown endpoint: " ++
            endpointName input.endpoint⟩) := by
        simp [route_request, h1, h2, h3, h4, h5, h6, h7, h8]
      exact ⟨by simp [handler, hinp, hok, hroute],
        by simp [handler, hinp, hok, hroute]⟩

/-- Witness for C4 at a concrete unknown-endpoint job and an empty-input
job. -/
theorem C4_job_envelope_witness :
    ((handler "secret" 0 [] (fun _ _ => .ok "out")
        ⟨some "j1", some ⟨some "secret", some "nonexistent", ⟨none⟩⟩⟩).1.status =
      "error"
     ∧ (handler "secret" 0 [] (fun _ _ => .ok "out")
        ⟨some "j1", some ⟨some "secret", some "nonexistent", ⟨none⟩⟩⟩).1.error =
      some ⟨404, "Unknown endpoint: " ++ endpointName (some "nonexistent")⟩)
    ∧ ((handler "secret" 0 [] (fun _ _ => .ok "out")
        ⟨some "j2", none⟩).1.status = "error"
     ∧ (handler "secret" 0 [] (fun _ _ => .ok "out")
        ⟨some "j2", none⟩).1.error = some ⟨400, "No input provided"⟩
     ∧ (handler "secret" 0 [] (fun _ _ => .ok "out")
        ⟨some "j2", none⟩).2.2 = false) :=
  ⟨(C4_job_envelope "secret" 0 [] (fun _ _ => .ok "out")
      ⟨some "j1", some ⟨some "secret", some "nonexistent", ⟨none⟩⟩⟩).2.2.2
      ⟨some "secret", some "nonexistent", ⟨none⟩⟩ rfl (by decide) (by decide),
   (C4_job_envelope "secret" 0 [] (fun _ _ => .ok "out")
      ⟨some "j2", none⟩).2.2.1 rfl⟩

end FishAgent
